import Mathlib

/-!
Verification of the telemetry-ingestion / channel-buffering / gait-cycle-segmentation
core of the `exskeleton` PC collector (`src/pc/gait_data_collector_gui.py`, with the
older revision `src/pc/gait_data_collector.py` for the refinement comparison).

Modelling conventions:
* Python `float` values (angles, progress fractions) are modelled as `ℚ`;
  timestamps (milliseconds, integers on the wire) are also carried as `ℚ`
  since the Python code mixes them freely in arithmetic with floats.
* `collections.deque(maxlen=N)` is modelled as a `List` with an explicit
  capacity-respecting append (`dequeAppend`), index 0 = oldest element.
* The 20-entry peak-history deque and the 5-entry trend list are kept
  newest-first (`pushHistory` / `pushTrend` cons at the head); the Python
  negative indices `[-1]`, `[-2]`, `[-3]` become head positions 0, 1, 2.
* `json.loads` is an external library call; the record-extraction functions
  are parameterised over an arbitrary decoder `decode : String → Option TelemetryRecord`.
  A small concrete decoder `jsonDecodeFlat` (flat objects of quoted string keys
  and plain decimal numbers, no whitespace/escapes/exponents — the exact shape of
  the wire records) instantiates the examples.
* Writing the detected cycle to the JSON file is modelled as emitting an
  `Option CycleRecord` value; the wall-clock `timestamp` field of the file
  (`datetime.now()`) is outside the model.
-/

namespace Gait

/-! ## Channel buffers (`collections.deque(maxlen=MAX_DATA_POINTS)`) -/

/-- Source constant `MAX_DATA_POINTS = 2000` (`gait_data_collector_gui.py`, line 37). -/
def MAX_DATA_POINTS : Nat := 2000

/-- Append to a `deque(maxlen=cap)`: when the buffer is at (or beyond) capacity the
oldest element (index 0) is dropped before the new element is appended at the end. -/
def dequeAppend {α : Type} (cap : Nat) (b : List α) (x : α) : List α :=
  if b.length < cap then b ++ [x] else b.drop 1 ++ [x]

/-- Fold a whole sequence of appends into a buffer. -/
def dequeAppendAll {α : Type} (cap : Nat) (b : List α) (xs : List α) : List α :=
  xs.foldl (dequeAppend cap) b

/-! ## Cycle detector state (`GaitDataCollector.__init__` / `_detect_gait_cycle`) -/

/-- One entry of `hip_angle_history`: the dict
`{'time': timestamp, 'angle': hip_angle, 'ankle': ankle_angle}` appended at
`gait_data_collector_gui.py` line 447.  `ankle` is `Option` because the gait
processing loop passes `data.get('a', None)`. -/
structure HistEntry where
  time : ℚ
  angle : ℚ
  ankle : Option ℚ
deriving DecidableEq

/-- The record written by `_save_gait_cycle` (lines 562-592): relative time in
seconds starting from 0, the duration in seconds, the sample count and the two
angle series.  The wall-clock `timestamp` field is not modelled. -/
structure CycleRecord where
  cycle_duration : ℚ
  data_points : Nat
  time : List ℚ
  hip_angle : List ℚ
  ankle_angle : List (Option ℚ)
deriving DecidableEq

/-- The cycle-detection state of `GaitDataCollector` (the fields reset by
`clear_all_data`, lines 698-711, plus the accumulated cycle lists).  In the
Python source these are flat attributes of the collector object; they are
grouped here because they are exactly the state `_detect_gait_cycle` works on. -/
structure DetectorState where
  last_hip_angle : Option ℚ
  cycle_start_time : Option ℚ
  cycle_start_hip : Option ℚ
  in_cycle : Bool
  gait_cycle_time : List ℚ
  gait_cycle_hip : List ℚ
  gait_cycle_ankle : List (Option ℚ)
  hip_angle_history : List HistEntry
  hip_angle_trend : List ℚ
  last_peak_time : Option ℚ
  last_peak_angle : Option ℚ
deriving DecidableEq

/-- The `__init__` / `clear_all_data` values of the detector fields. -/
def initDetector : DetectorState :=
  { last_hip_angle := none
    cycle_start_time := none
    cycle_start_hip := none
    in_cycle := false
    gait_cycle_time := []
    gait_cycle_hip := []
    gait_cycle_ankle := []
    hip_angle_history := []
    hip_angle_trend := []
    last_peak_time := none
    last_peak_angle := none }

/-- Source constant `self.min_cycle_duration = 800` (milliseconds). -/
def min_cycle_duration : ℚ := 800

/-- Source constant `self.max_cycle_duration = 3000` (milliseconds). -/
def max_cycle_duration : ℚ := 3000

/-- `self.hip_angle_history.append(...)` on a `deque(maxlen=20)`, newest-first
representation: cons and truncate to 20. -/
def pushHistory (hist : List HistEntry) (e : HistEntry) : List HistEntry :=
  (e :: hist).take 20

/-- `self.hip_angle_trend.append(d)` followed by `pop(0)` when the length
exceeds 5 (lines 528-530), newest-first representation. -/
def pushTrend (tr : List ℚ) (d : ℚ) : List ℚ :=
  (d :: tr).take 5

/-- The peak test of `_detect_gait_cycle` lines 455-477, applied to the trend
list as it stands before this sample's delta is appended, the history with the
current sample already appended (newest first), the new delta
`angle_diff = hip_angle - last_hip_angle` and the current angle
(`next_angle = hip_angle`).  Returns `true` exactly when the source sets
`is_peak = True`. -/
def detectPeakAt (tr : List ℚ) (hist2 : List HistEntry) (angleDiff : ℚ)
    (nextAngle : ℚ) : Bool :=
  match tr with
  | [] => false
  | lastTrend :: _ =>
    if (0 < lastTrend ∧ angleDiff < 0) ∨ (lastTrend < 0 ∧ 0 < angleDiff) then
      match hist2 with
      | _ :: mid :: prev :: _ =>
        if (prev.angle ≤ mid.angle ∧ nextAngle ≤ mid.angle) ∨
           (mid.angle ≤ prev.angle ∧ mid.angle ≤ nextAngle) then true else false
      | _ => false
    else false

/-- The index-search loop `for i, t in enumerate(...): if t >= x: start_idx = i; break`
with `start_idx` initialised to 0 (lines 495-499 and 517-521). -/
def trimStartIdx (ct : List ℚ) (x : ℚ) : Nat :=
  (ct.findIdx? (fun u => decide (x ≤ u))).getD 0

/-- `_save_gait_cycle` (lines 562-592): refuses fewer than 10 points, otherwise
produces the relative-time-normalised record.  File I/O is modelled as
returning the record. -/
def save_gait_cycle (ct : List ℚ) (ch : List ℚ) (ca : List (Option ℚ)) :
    Option CycleRecord :=
  if ct.length < 10 then none
  else
    match ct.head? with
    | none => none
    | some t0 =>
      some { cycle_duration := (ct.getLastD t0 - t0) / 1000
             data_points := ct.length
             time := ct.map (fun u => (u - t0) / 1000)
             hip_angle := ch
             ankle_angle := ca }

/-- The qualifying-peak handling block of `_detect_gait_cycle` (lines 479-525):
given the detected peak point (`peak_time`, `peak_angle` = the middle of the
last three history entries), either completes/advances the running cycle (when
a prior peak exists) or records the first peak.  Returns the updated state and
the emitted `CycleRecord`, if any. -/
def handlePeak (s : DetectorState) (peakTime : ℚ) (peakAngle : ℚ) :
    DetectorState × Option CycleRecord :=
  match s.last_peak_time with
  | some lp =>
    let cycleDuration := peakTime - lp
    if min_cycle_duration ≤ cycleDuration ∧ cycleDuration ≤ max_cycle_duration then
      let saved :=
        if 20 ≤ s.gait_cycle_time.length then
          save_gait_cycle s.gait_cycle_time s.gait_cycle_hip s.gait_cycle_ankle
        else none
      let startIdx := trimStartIdx s.gait_cycle_time lp
      let s1 :=
        if startIdx < s.gait_cycle_time.length then
          { s with gait_cycle_time := s.gait_cycle_time.drop startIdx
                   gait_cycle_hip := s.gait_cycle_hip.drop startIdx
                   gait_cycle_ankle := s.gait_cycle_ankle.drop startIdx
                   cycle_start_time := some lp }
        else s
      ({ s1 with last_peak_time := some peakTime, last_peak_angle := some peakAngle },
       saved)
    else
      ({ s with last_peak_time := some peakTime, last_peak_angle := some peakAngle },
       none)
  | none =>
    let peakIdx := trimStartIdx s.gait_cycle_time peakTime
    let s1 := { s with last_peak_time := some peakTime
                       last_peak_angle := some peakAngle
                       cycle_start_time := some peakTime }
    if 0 < peakIdx then
      ({ s1 with gait_cycle_time := s1.gait_cycle_time.drop peakIdx
                 gait_cycle_hip := s1.gait_cycle_hip.drop peakIdx
                 gait_cycle_ankle := s1.gait_cycle_ankle.drop peakIdx }, none)
    else (s1, none)

/-- The per-sample cycle accumulation of `_detect_gait_cycle` (lines 532-558):
append the sample while in a cycle and abandon the cycle when it has run for
more than `max_cycle_duration` since its start; otherwise restart a cycle at
this sample.  (`cycle_start_time` is always set while `in_cycle` holds in every
reachable state; the `getD 0` default is for totality only.) -/
def cyclePhase (s : DetectorState) (t : ℚ) (h : ℚ) (a : Option ℚ) : DetectorState :=
  if s.in_cycle then
    let s1 := { s with gait_cycle_time := s.gait_cycle_time ++ [t]
                       gait_cycle_hip := s.gait_cycle_hip ++ [h]
                       gait_cycle_ankle := s.gait_cycle_ankle ++ [a] }
    if max_cycle_duration < t - s1.cycle_start_time.getD 0 then
      { s1 with in_cycle := false
                gait_cycle_time := []
                gait_cycle_hip := []
                gait_cycle_ankle := []
                last_peak_time := none
                last_peak_angle := none }
    else s1
  else
    { s with in_cycle := true
             cycle_start_time := some t
             cycle_start_hip := some h
             gait_cycle_time := [t]
             gait_cycle_hip := [h]
             gait_cycle_ankle := [a]
             last_peak_time := none
             last_peak_angle := none }

/-- One call of `_detect_gait_cycle(timestamp, hip_angle, ankle_angle)`
(lines 426-560), returning the updated state and the `CycleRecord` written by
`_save_gait_cycle` during this call, if any. -/
def detect_gait_cycle (s : DetectorState) (t : ℚ) (h : ℚ) (a : Option ℚ) :
    DetectorState × Option CycleRecord :=
  match s.last_hip_angle with
  | none =>
    ({ s with last_hip_angle := some h
              cycle_start_time := some t
              cycle_start_hip := some h
              in_cycle := true
              gait_cycle_time := []
              gait_cycle_hip := []
              gait_cycle_ankle := []
              hip_angle_history := []
              hip_angle_trend := [] }, none)
  | some lastAngle =>
    let hist2 := pushHistory s.hip_angle_history ⟨t, h, a⟩
    let angleDiff := h - lastAngle
    let sh := { s with hip_angle_history := hist2 }
    let step :=
      if detectPeakAt s.hip_angle_trend hist2 angleDiff h then
        match hist2 with
        | _ :: mid :: _ => handlePeak sh mid.time mid.angle
        | _ => (sh, none)
      else (sh, none)
    let s2 := { step.1 with hip_angle_trend := pushTrend step.1.hip_angle_trend angleDiff }
    let s3 := cyclePhase s2 t h a
    ({ s3 with last_hip_angle := some h }, step.2)

/-- Run the detector over a list of `(timestamp, hip, ankle)` samples,
discarding emitted records. -/
def runDetector (s : DetectorState) (l : List (ℚ × ℚ × Option ℚ)) : DetectorState :=
  l.foldl (fun st e => (detect_gait_cycle st e.1 e.2.1 e.2.2).1) s

/-- Run the detector over samples, also tracking the most recently emitted
record (each emission overwrites the stored file, `GAIT_CYCLE_FILE`). -/
def runDetectorStore (p : DetectorState × Option CycleRecord)
    (l : List (ℚ × ℚ × Option ℚ)) : DetectorState × Option CycleRecord :=
  l.foldl
    (fun q e =>
      let r := detect_gait_cycle q.1 e.1 e.2.1 e.2.2
      (r.1, match r.2 with | some rec2 => some rec2 | none => q.2))
    p

/-! ## Spec-side conditions for the detector claims -/

/-- Spec wording: the sign of the most recent trend entry flips relative to the
new delta (strictly increasing to strictly decreasing or vice versa). -/
def signFlips (lastTrend delta : ℚ) : Prop :=
  (0 < lastTrend ∧ delta < 0) ∨ (lastTrend < 0 ∧ 0 < delta)

/-- Spec wording: the middle of the last three window entries (newest-first
positions 0, 1, 2) is a local maximum (`≥` both neighbours) or a local minimum
(`≤` both neighbours); ties qualify. -/
def middleIsExtremum (hist2 : List HistEntry) : Prop :=
  ∃ c m p rest, hist2 = c :: m :: p :: rest ∧
    ((p.angle ≤ m.angle ∧ c.angle ≤ m.angle) ∨
     (m.angle ≤ p.angle ∧ m.angle ≤ c.angle))

/-- The candidate peak point: the middle of the last three entries of the
(window-appended) peak history, i.e. the entry at newest-first position 1. -/
def newPeakOf (hist2 : List HistEntry) : Option HistEntry :=
  match hist2 with
  | _ :: mid :: _ => some mid
  | _ => none

/-- Spec wording of the emission condition of claim C1: a qualifying peak is
detected, a prior peak is recorded, the peak-to-peak duration lies within
[800 ms, 3000 ms], and the accumulated cycle (as it stands when the peak is
examined) holds at least 20 samples. -/
def cycleEmitCondition (s : DetectorState) (t h : ℚ) (a : Option ℚ) : Prop :=
  ∃ la lp mid,
    s.last_hip_angle = some la ∧
    s.last_peak_time = some lp ∧
    detectPeakAt s.hip_angle_trend (pushHistory s.hip_angle_history ⟨t, h, a⟩)
      (h - la) h = true ∧
    newPeakOf (pushHistory s.hip_angle_history ⟨t, h, a⟩) = some mid ∧
    800 ≤ mid.time - lp ∧ mid.time - lp ≤ 3000 ∧
    20 ≤ s.gait_cycle_time.length

/-! ## Line framing and record extraction (`_collect_data`) -/

/-- Whitespace characters removed by Python's `str.strip()`. -/
def isPySpace (c : Char) : Bool :=
  c == ' ' || c == '\t' || c == '\n' || c == '\r' || c == '\x0b' || c == '\x0c'

/-- Python `line.strip()` on a list of characters. -/
def pyStrip (l : List Char) : List Char :=
  ((l.dropWhile isPySpace).reverse.dropWhile isPySpace).reverse

/-- Python `line.startswith(p)`. -/
def startsWithChars (l : List Char) (p : String) : Bool :=
  p.data.isPrefixOf l

/-- Python `line.find(c)` restricted to the guarded case: index of the first
occurrence, `none` when absent. -/
def pyFind (l : List Char) (c : Char) : Option Nat :=
  l.findIdx? (fun x => x == c)

/-- Python `line.rfind(c)`: index of the last occurrence, `none` when absent. -/
def pyRFind (l : List Char) (c : Char) : Option Nat :=
  (l.reverse.findIdx? (fun x => x == c)).map (fun j => l.length - 1 - j)

/-- A decoded wire record: an ordered mapping from key to numeric value
(the shape `json.loads` yields for the telemetry lines). -/
abbrev TelemetryRecord := List (String × ℚ)

/-- Python `data_dict.get(key, None)` / key lookup (first occurrence). -/
def lookupKey : TelemetryRecord → String → Option ℚ
  | [], _ => none
  | (k, v) :: r, key => if k = key then some v else lookupKey r key

/-- Python `key in data_dict`. -/
def hasKey (r : TelemetryRecord) (k : String) : Bool :=
  (lookupKey r k).isSome

/-- The per-line record extraction of the GUI revision's `_collect_data`
(`gait_data_collector_gui.py` lines 266-318): strip, drop empty and
command-echo lines, take the substring from the first opening to the last
closing brace, decode it (the decoder models `json.loads`; failure is
silently dropped), and accept the record only when both mandatory keys
`t` and `h` are present. -/
def extract_sample (decode : String → Option TelemetryRecord)
    (line : String) : Option TelemetryRecord :=
  let l := pyStrip line.data
  if l.isEmpty then none
  else if startsWithChars l ">" || startsWithChars l "Command:" then none
  else if l.contains '\x7b' && l.contains '\x7d' then
    let si := (pyFind l '\x7b').getD 0
    let ei := (pyRFind l '\x7d').getD 0 + 1
    if si < ei then
      match decode (String.mk ((l.drop si).take (ei - si))) with
      | some r => if hasKey r "t" && hasKey r "h" then some r else none
      | none => none
    else none
  else none

/-- The extraction contract in the spec's words (§4.1): trim whitespace, drop
empty and prompt-marker lines, locate the first `\x7b` and the last `\x7d`;
if both exist and the first precedes the last, decode that substring, silently
discarding failures, and accept the record iff it has both mandatory keys. -/
def extractSampleSpec (decode : String → Option TelemetryRecord)
    (line : String) : Option TelemetryRecord :=
  let l := pyStrip line.data
  if l.isEmpty then none
  else if startsWithChars l ">" || startsWithChars l "Command:" then none
  else
    match pyFind l '\x7b', pyRFind l '\x7d' with
    | some i, some j =>
      if i < j then
        match decode (String.mk ((l.drop i).take (j + 1 - i))) with
        | some r => if hasKey r "t" && hasKey r "h" then some r else none
        | none => none
      else none
    | _, _ => none

/-- The per-line record extraction of the older console revision
(`gait_data_collector.py` lines 147-166): same strip/skip filters, but the
stripped line itself must start with `\x7b` and end with `\x7d`, the whole
line is decoded, and the keys `t`, `h` and `a` are all required. -/
def extract_sample_old (decode : String → Option TelemetryRecord)
    (line : String) : Option TelemetryRecord :=
  let l := pyStrip line.data
  if l.isEmpty then none
  else if startsWithChars l ">" || startsWithChars l "Command:" then none
  else if startsWithChars l "\x7b" && decide (l.getLast? = some '\x7d') then
    match decode (String.mk l) with
    | some r => if hasKey r "t" && hasKey r "h" && hasKey r "a" then some r
                else none
    | none => none
  else none

/-! ## A concrete decoder instantiating `json.loads` on the wire records
(flat objects, quoted string keys, plain decimal numbers, no whitespace,
escapes or exponents — exactly the records the device emits). -/

/-- Decimal digit test. -/
def isJDigit (c : Char) : Bool := 48 ≤ c.toNat && c.toNat ≤ 57

/-- Digits to the natural number they denote. -/
def digitsToNat (ds : List Char) : Nat :=
  ds.foldl (fun n c => 10 * n + (c.toNat - 48)) 0

/-- Parse an optionally-signed decimal number (`123` or `123.45`). -/
def parseJNumber (l : List Char) : Option (ℚ × List Char) :=
  let neg := match l with | '-' :: _ => true | _ => false
  let l1 := match l with | '-' :: r => r | _ => l
  let ds := l1.takeWhile isJDigit
  let l2 := l1.dropWhile isJDigit
  if ds.isEmpty then none
  else
    match l2 with
    | '.' :: r =>
      let fs := r.takeWhile isJDigit
      let l3 := r.dropWhile isJDigit
      if fs.isEmpty then none
      else
        let mag : ℚ :=
          mkRat (digitsToNat ds * 10 ^ fs.length + digitsToNat fs) (10 ^ fs.length)
        some ((if neg then -mag else mag), l3)
    | _ => some ((if neg then -(digitsToNat ds : ℚ) else (digitsToNat ds : ℚ)), l2)

/-- Parse a quoted key (no escape sequences). -/
def parseJKey (l : List Char) : Option (String × List Char) :=
  match l with
  | '"' :: r =>
    match r.dropWhile (fun c => !(c == '"')) with
    | '"' :: rest => some (String.mk (r.takeWhile (fun c => !(c == '"'))), rest)
    | _ => none
  | _ => none

/-- Parse one `"key":number` pair. -/
def parseJPair (l : List Char) : Option ((String × ℚ) × List Char) :=
  match parseJKey l with
  | some (k, r1) =>
    match r1 with
    | ':' :: r2 =>
      match parseJNumber r2 with
      | some (v, r3) => some ((k, v), r3)
      | none => none
    | _ => none
  | none => none

/-- Parse the members of an object up to and including the closing brace. -/
def parseJMembers : Nat → List Char → Option (TelemetryRecord × List Char)
  | 0, _ => none
  | fuel + 1, l =>
    match parseJPair l with
    | some (kv, r) =>
      match r with
      | ',' :: r2 =>
        match parseJMembers fuel r2 with
        | some (m, r3) => some (kv :: m, r3)
        | none => none
      | '\x7d' :: r2 => some ([kv], r2)
      | _ => none
    | none => none

/-- The concrete decoder: a whole string that is one flat object. -/
def jsonDecodeFlat (s : String) : Option TelemetryRecord :=
  match s.data with
  | '\x7b' :: r =>
    match r with
    | '\x7d' :: rest => if rest.isEmpty then some [] else none
    | _ =>
      match parseJMembers (r.length + 1) r with
      | some (m, rest) => if rest.isEmpty then some m else none
      | none => none
  | _ => none

/-! ## Collector state, processing loops and module control -/

/-- The buffer/flag state of `GaitDataCollector` relevant to the processing
modes.  The deques hold either a number (`some x`) or Python `None` (`none`);
`hip_velocity_data` is omitted: no processing loop ever appends to it.
`saved_cycle` models the contents of the persisted cycle file. -/
structure CollectorState where
  gait_module_enabled : Bool
  hip_module_enabled : Bool
  time_data : List ℚ
  hip_data : List ℚ
  ankle_data : List (Option ℚ)
  hip_filtered_data : List (Option ℚ)
  hip_velocity_filtered_data : List (Option ℚ)
  phase_data : List (Option ℚ)
  swing_progress_data : List (Option ℚ)
  ankle_deg_data : List (Option ℚ)
  ankle_ref_data : List (Option ℚ)
  act_data : List (Option ℚ)
  detector : DetectorState
  is_loaded_data : Bool
  saved_cycle : Option CycleRecord
deriving DecidableEq

/-- `GaitDataCollector.__init__`: everything empty, both modules off. -/
def initCollector : CollectorState :=
  { gait_module_enabled := false
    hip_module_enabled := false
    time_data := []
    hip_data := []
    ankle_data := []
    hip_filtered_data := []
    hip_velocity_filtered_data := []
    phase_data := []
    swing_progress_data := []
    ankle_deg_data := []
    ankle_ref_data := []
    act_data := []
    detector := initDetector
    is_loaded_data := false
    saved_cycle := none }

/-- `start_gait_module` (lines 199-211): no-op returning `False` when already
enabled, otherwise just sets the flag (no buffer or detector reset). -/
def start_gait_module (s : CollectorState) : CollectorState × Bool :=
  if s.gait_module_enabled then (s, false)
  else ({ s with gait_module_enabled := true }, true)

/-- `stop_gait_module` (lines 213-217): clears the flag; the thread join has no
state effect. -/
def stop_gait_module (s : CollectorState) : CollectorState :=
  { s with gait_module_enabled := false }

/-- `start_hip_module` (lines 219-243): no-op returning `False` when already
enabled, otherwise clears the eight hip-module buffers and sets the flag. -/
def start_hip_module (s : CollectorState) : CollectorState × Bool :=
  if s.hip_module_enabled then (s, false)
  else
    ({ s with time_data := []
              hip_data := []
              hip_filtered_data := []
              ankle_deg_data := []
              phase_data := []
              swing_progress_data := []
              ankle_ref_data := []
              act_data := []
              hip_module_enabled := true }, true)

/-- `stop_hip_module` (lines 245-253): clears the flag and deliberately retains
the buffered data. -/
def stop_hip_module (s : CollectorState) : CollectorState :=
  { s with hip_module_enabled := false }

/-- `clear_all_data` (lines 691-714), field by field as in the source: clears
`time_data`/`hip_data`/`ankle_data`, the gait-cycle series and the
peak-detection state, and drops the loaded-data marker. -/
def clear_all_data (s : CollectorState) : CollectorState :=
  { s with time_data := []
           hip_data := []
           ankle_data := []
           detector := { s.detector with
                           gait_cycle_time := []
                           gait_cycle_hip := []
                           gait_cycle_ankle := []
                           last_hip_angle := none
                           cycle_start_time := none
                           cycle_start_hip := none
                           in_cycle := false
                           hip_angle_history := []
                           hip_angle_trend := []
                           last_peak_time := none
                           last_peak_angle := none }
           is_loaded_data := false }

/-- One accepted-sample iteration of `_gait_process_loop` (lines 335-358):
require `t` and `h`, append to the three raw buffers, feed the detector. -/
def gaitProcessStep (s : CollectorState) (d : TelemetryRecord) : CollectorState :=
  match lookupKey d "t", lookupKey d "h" with
  | some t, some h =>
    let a := lookupKey d "a"
    let s1 := { s with time_data := dequeAppend MAX_DATA_POINTS s.time_data t
                       hip_data := dequeAppend MAX_DATA_POINTS s.hip_data h
                       ankle_data := dequeAppend MAX_DATA_POINTS s.ankle_data a }
    let r := detect_gait_cycle s1.detector t h a
    { s1 with detector := r.1
              saved_cycle := match r.2 with
                             | some rec2 => some rec2
                             | none => s1.saved_cycle }
  | _, _ => s

/-- One iteration of `_hip_process_loop` (lines 369-424): require `t` and `h`,
else skip; `hf`/`hvf`/`a`/`ar` keep Python `None` when absent, while
`phase`/`s`/`act` fall back to the numeric defaults `0`, `0.0`, `0`; all nine
buffers are appended on every accepted sample; `ankle_data` additionally
receives the ankle angle (0.0 when absent) while the gait module is off. -/
def hipProcessStep (s : CollectorState) (d : TelemetryRecord) : CollectorState :=
  match lookupKey d "t", lookupKey d "h" with
  | some t, some h =>
    let s1 :=
      { s with
        time_data := dequeAppend MAX_DATA_POINTS s.time_data t
        hip_data := dequeAppend MAX_DATA_POINTS s.hip_data h
        hip_filtered_data :=
          dequeAppend MAX_DATA_POINTS s.hip_filtered_data (lookupKey d "hf")
        hip_velocity_filtered_data :=
          dequeAppend MAX_DATA_POINTS s.hip_velocity_filtered_data (lookupKey d "hvf")
        phase_data :=
          dequeAppend MAX_DATA_POINTS s.phase_data (some ((lookupKey d "phase").getD 0))
        swing_progress_data :=
          dequeAppend MAX_DATA_POINTS s.swing_progress_data
            (some ((lookupKey d "s").getD 0))
        ankle_deg_data :=
          dequeAppend MAX_DATA_POINTS s.ankle_deg_data (lookupKey d "a")
        ankle_ref_data :=
          dequeAppend MAX_DATA_POINTS s.ankle_ref_data (lookupKey d "ar")
        act_data :=
          dequeAppend MAX_DATA_POINTS s.act_data (some ((lookupKey d "act").getD 0)) }
    if s1.gait_module_enabled then s1
    else { s1 with ankle_data :=
                     dequeAppend MAX_DATA_POINTS s1.ankle_data
                       (some ((lookupKey d "a").getD 0)) }
  | _, _ => s

/-- The hip-module iteration as the spec words it (§3, §4.2): identical to
`hipProcessStep` except that **every** absent optional field — including
`phase`, `s` and `act` — is stored as the missing-sentinel, never as a numeric
default. -/
def hipProcessStepSpec (s : CollectorState) (d : TelemetryRecord) : CollectorState :=
  match lookupKey d "t", lookupKey d "h" with
  | some t, some h =>
    let s1 :=
      { s with
        time_data := dequeAppend MAX_DATA_POINTS s.time_data t
        hip_data := dequeAppend MAX_DATA_POINTS s.hip_data h
        hip_filtered_data :=
          dequeAppend MAX_DATA_POINTS s.hip_filtered_data (lookupKey d "hf")
        hip_velocity_filtered_data :=
          dequeAppend MAX_DATA_POINTS s.hip_velocity_filtered_data (lookupKey d "hvf")
        phase_data := dequeAppend MAX_DATA_POINTS s.phase_data (lookupKey d "phase")
        swing_progress_data :=
          dequeAppend MAX_DATA_POINTS s.swing_progress_data (lookupKey d "s")
        ankle_deg_data :=
          dequeAppend MAX_DATA_POINTS s.ankle_deg_data (lookupKey d "a")
        ankle_ref_data :=
          dequeAppend MAX_DATA_POINTS s.ankle_ref_data (lookupKey d "ar")
        act_data := dequeAppend MAX_DATA_POINTS s.act_data (lookupKey d "act") }
    if s1.gait_module_enabled then s1
    else { s1 with ankle_data :=
                     dequeAppend MAX_DATA_POINTS s1.ankle_data
                       (some ((lookupKey d "a").getD 0)) }
  | _, _ => s

/-- Lock-step invariant: all nine hip-module buffers have the same length. -/
@[reducible] def hipBuffersAligned (s : CollectorState) : Prop :=
  s.time_data.length = s.hip_data.length ∧
  s.time_data.length = s.hip_filtered_data.length ∧
  s.time_data.length = s.hip_velocity_filtered_data.length ∧
  s.time_data.length = s.phase_data.length ∧
  s.time_data.length = s.swing_progress_data.length ∧
  s.time_data.length = s.ankle_deg_data.length ∧
  s.time_data.length = s.ankle_ref_data.length ∧
  s.time_data.length = s.act_data.length

/-! ## Concrete inputs used by counterexamples and witnesses -/

/-- Six samples at 500 ms spacing: flat start, a local maximum at t = 1000 and
a local minimum at t = 2000, giving a qualifying 1000 ms peak pair. -/
def c3_trace : List (ℚ × ℚ × Option ℚ) :=
  [(0, 0, none), (500, 1, none), (1000, 2, none),
   (1500, 1, none), (2000, 0, none), (2500, 1, none)]

/-- A detector state with a recorded prior peak at t = 200 and two accumulated
samples, used to instantiate the amended claim C3. -/
def c3WitnessState : DetectorState :=
  { initDetector with last_hip_angle := some 6
                      cycle_start_time := some 100
                      in_cycle := true
                      gait_cycle_time := [100, 300]
                      gait_cycle_hip := [5, 6]
                      gait_cycle_ankle := [none, none]
                      last_peak_time := some 200
                      last_peak_angle := some 5 }

/-- A well-formed wire line carrying both mandatory keys. -/
def jsonLineTH : String := "\x7b\"t\":1234,\"h\":15.5\x7d"

/-- A wire line missing the mandatory key `h`. -/
def jsonLineTOnly : String := "\x7b\"t\":1234\x7d"

/-- A malformed line with unquoted keys (fails to decode). -/
def jsonLineUnquoted : String := "\x7bt:1234,h:15.5\x7d"

/-- A line with `t` and `h` but no `a`: the GUI revision accepts it, the older
revision rejects it. -/
def lineTH2 : String := "\x7b\"t\":1,\"h\":2\x7d"

/-- A line with `t`, `h` and `a`: accepted by both revisions. -/
def lineTHA : String := "\x7b\"t\":1,\"h\":2,\"a\":3\x7d"

/-- A record with only the two mandatory keys. -/
def recTH : TelemetryRecord := [("t", 1), ("h", 2)]

/-- A collector state with the hip module running. -/
def hipOnState : CollectorState := { initCollector with hip_module_enabled := true }

/-- Accepted records used to build a populated collector state. -/
def c7Rec1 : TelemetryRecord := [("t", 0), ("h", 1)]

/-- Second accepted record for the populated collector state. -/
def c7Rec2 : TelemetryRecord := [("t", 100), ("h", 2)]

/-- A collector state with both modules on and data accumulated by one gait
iteration and one hip iteration. -/
def c7State : CollectorState :=
  hipProcessStep
    (gaitProcessStep
      { initCollector with gait_module_enabled := true
                           hip_module_enabled := true } c7Rec1)
    c7Rec2

/-- A collector state with data in the hip-module buffers, used against
`clear_all_data`. -/
def c8State : CollectorState :=
  { initCollector with time_data := [3]
                       hip_data := [4]
                       hip_filtered_data := [some 1]
                       phase_data := [some 2]
                       swing_progress_data := [some 1]
                       ankle_deg_data := [some 7]
                       ankle_ref_data := [none]
                       act_data := [some 1]
                       hip_velocity_filtered_data := [some 9]
                       detector := { initDetector with last_hip_angle := some 4 } }

/-- Detector state after sample 1 of `c3_trace`. -/
def c3s1 : DetectorState :=
  { initDetector with last_hip_angle := some 0
                      cycle_start_time := some 0
                      cycle_start_hip := some 0
                      in_cycle := true }

/-- Detector state after sample 2 of `c3_trace`. -/
def c3s2 : DetectorState :=
  { initDetector with last_hip_angle := some 1
                      cycle_start_time := some 0
                      cycle_start_hip := some 0
                      in_cycle := true
                      gait_cycle_time := [500]
                      gait_cycle_hip := [1]
                      gait_cycle_ankle := [none]
                      hip_angle_history := [⟨500, 1, none⟩]
                      hip_angle_trend := [1] }

/-- Detector state after sample 3 of `c3_trace`. -/
def c3s3 : DetectorState :=
  { initDetector with last_hip_angle := some 2
                      cycle_start_time := some 0
                      cycle_start_hip := some 0
                      in_cycle := true
                      gait_cycle_time := [500, 1000]
                      gait_cycle_hip := [1, 2]
                      gait_cycle_ankle := [none, none]
                      hip_angle_history := [⟨1000, 2, none⟩, ⟨500, 1, none⟩]
                      hip_angle_trend := [1, 1] }

/-- Detector state after sample 4 of `c3_trace` (first peak recorded at
t = 1000). -/
def c3s4 : DetectorState :=
  { initDetector with last_hip_angle := some 1
                      cycle_start_time := some 1000
                      cycle_start_hip := some 0
                      in_cycle := true
                      gait_cycle_time := [1000, 1500]
                      gait_cycle_hip := [2, 1]
                      gait_cycle_ankle := [none, none]
                      hip_angle_history :=
                        [⟨1500, 1, none⟩, ⟨1000, 2, none⟩, ⟨500, 1, none⟩]
                      hip_angle_trend := [-1, 1, 1]
                      last_peak_time := some 1000
                      last_peak_angle := some 2 }

/-- Detector state after sample 5 of `c3_trace`. -/
def c3s5 : DetectorState :=
  { initDetector with last_hip_angle := some 0
                      cycle_start_time := some 1000
                      cycle_start_hip := some 0
                      in_cycle := true
                      gait_cycle_time := [1000, 1500, 2000]
                      gait_cycle_hip := [2, 1, 0]
                      gait_cycle_ankle := [none, none, none]
                      hip_angle_history :=
                        [⟨2000, 0, none⟩, ⟨1500, 1, none⟩, ⟨1000, 2, none⟩,
                         ⟨500, 1, none⟩]
                      hip_angle_trend := [-1, -1, 1, 1]
                      last_peak_time := some 1000
                      last_peak_angle := some 2 }

/-- Detector state after sample 6 of `c3_trace` (second peak at t = 2000,
1000 ms after the first, accepted; the buffer is trimmed at the OLD peak
position and therefore still starts at t = 1000). -/
def c3s6 : DetectorState :=
  { initDetector with last_hip_angle := some 1
                      cycle_start_time := some 1000
                      cycle_start_hip := some 0
                      in_cycle := true
                      gait_cycle_time := [1000, 1500, 2000, 2500]
                      gait_cycle_hip := [2, 1, 0, 1]
                      gait_cycle_ankle := [none, none, none, none]
                      hip_angle_history :=
                        [⟨2500, 1, none⟩, ⟨2000, 0, none⟩, ⟨1500, 1, none⟩,
                         ⟨1000, 2, none⟩, ⟨500, 1, none⟩]
                      hip_angle_trend := [1, -1, -1, 1, 1]
                      last_peak_time := some 2000
                      last_peak_angle := some 0 }

/-- A detector state poised one sample away from emitting a cycle record:
20 accumulated samples, a prior peak at t = 100, and a falling sample about
to reveal the local maximum at t = 1050. -/
def emitReadyState : DetectorState :=
  { initDetector with last_hip_angle := some 2
                      cycle_start_time := some 100
                      cycle_start_hip := some 1
                      in_cycle := true
                      gait_cycle_time :=
                        [100, 150, 200, 250, 300, 350, 400, 450, 500, 550,
                         600, 650, 700, 750, 800, 850, 900, 950, 1000, 1050]
                      gait_cycle_hip :=
                        [1, 1, 1, 1, 1, 1, 1, 1, 1, 1,
                         1, 1, 1, 1, 1, 1, 1, 1, 1, 2]
                      gait_cycle_ankle :=
                        [none, none, none, none, none, none, none, none, none, none,
                         none, none, none, none, none, none, none, none, none, none]
                      hip_angle_history := [⟨1050, 2, none⟩, ⟨1000, 1, none⟩]
                      hip_angle_trend := [1]
                      last_peak_time := some 100
                      last_peak_angle := some 1 }

/-! ## Theorems -/

/-- Appending to a capacity-`cap` deque never changes more than one slot of
length: below capacity the length grows by one, at capacity it stays. -/
theorem dequeAppend_length {α : Type} (cap : Nat) (hcap : 1 ≤ cap)
    (b : List α) (x : α) :
    (dequeAppend cap b x).length =
      if b.length < cap then b.length + 1 else b.length := by
  unfold dequeAppend
  by_cases hb : b.length < cap
  · simp [hb]
  · have hge : cap ≤ b.length := Nat.le_of_not_lt hb
    simp only [hb, if_false, List.length_append, List.length_drop]
    simp only [List.length_cons, List.length_nil]
    omega

/-- The element just appended is the last element of the deque. -/
theorem dequeAppend_getLast? {α : Type} (cap : Nat) (b : List α) (x : α) :
    (dequeAppend cap b x).getLast? = some x := by
  unfold dequeAppend
  by_cases hb : b.length < cap <;> simp [hb, List.getLast?_concat]

/-- Folding appends into a buffer that respects its capacity keeps exactly the
trailing `cap`-window of everything ever appended. -/
theorem dequeAppendAll_drop {α : Type} (cap : Nat) (hcap : 1 ≤ cap) :
    ∀ (xs b : List α), b.length ≤ cap →
      dequeAppendAll cap b xs = (b ++ xs).drop ((b ++ xs).length - cap) := by
  intro xs
  induction xs with
  | nil =>
    intro b hb
    simp [dequeAppendAll, Nat.sub_eq_zero_of_le hb]
  | cons x rest ih =>
    intro b hb
    have hstep : dequeAppendAll cap b (x :: rest) =
        dequeAppendAll cap (dequeAppend cap b x) rest := rfl
    rw [hstep]
    by_cases hlt : b.length < cap
    · have hb' : (dequeAppend cap b x).length ≤ cap := by
        rw [dequeAppend_length cap hcap b x]
        simp [hlt]
        omega
      rw [ih (dequeAppend cap b x) hb']
      have hform : dequeAppend cap b x = b ++ [x] := by
        unfold dequeAppend; simp [hlt]
      rw [hform]
      simp [List.append_assoc]
    · have heq : b.length = cap := Nat.le_antisymm hb (Nat.le_of_not_lt hlt)
      have hbpos : 1 ≤ b.length := le_trans hcap (le_of_eq heq.symm)
      have hb' : (dequeAppend cap b x).length ≤ cap := by
        rw [dequeAppend_length cap hcap b x]
        simp [hlt]
        omega
      rw [ih (dequeAppend cap b x) hb']
      have hform : dequeAppend cap b x = b.drop 1 ++ [x] := by
        unfold dequeAppend; simp [hlt]
      rw [hform]
      have hsplit : (b.drop 1 ++ [x]) ++ rest = (b ++ x :: rest).drop 1 := by
        rw [List.drop_append_of_le_length hbpos]
        simp
      rw [hsplit, List.drop_drop]
      have hlen1 : ((b ++ x :: rest).drop 1).length = b.length + rest.length := by
        simp only [List.length_drop, List.length_append, List.length_cons]
        omega
      have hlen2 : (b ++ x :: rest).length = b.length + rest.length + 1 := by
        simp only [List.length_append, List.length_cons]
        omega
      rw [hlen1, hlen2]
      congr 1
      omega

/-- C5: for every sequence of appends into an (initially empty) channel
buffer, the length never exceeds `MAX_DATA_POINTS = 2000`, and the buffer
holds exactly the trailing 2000-window of the appended values in arrival
order (so at capacity each append drops index 0). -/
theorem channel_buffer_bounded_window {α : Type} (xs : List α) :
    (dequeAppendAll MAX_DATA_POINTS [] xs).length ≤ MAX_DATA_POINTS ∧
    dequeAppendAll MAX_DATA_POINTS [] xs =
      xs.drop (xs.length - MAX_DATA_POINTS) := by
  have h := dequeAppendAll_drop MAX_DATA_POINTS (by norm_num [MAX_DATA_POINTS]) xs []
    (by simp)
  simp only [List.nil_append] at h
  refine ⟨?_, h⟩
  rw [h]
  simp only [List.length_drop]
  omega

/-- C9: a zero delta (equal consecutive samples), or a zero most-recent trend
entry, can never pass the strict sign-flip test, so no peak candidate is
considered on such a tick. -/
theorem flat_run_no_candidate (tr : List ℚ) (hist2 : List HistEntry) (d n : ℚ)
    (hflat : d = 0 ∨ tr.head? = some 0) :
    detectPeakAt tr hist2 d n = false := by
  cases tr with
  | nil => rfl
  | cons lt rest =>
    rcases hflat with h0 | h0
    · subst h0
      simp [detectPeakAt]
    · have hlt : lt = 0 := by
        simpa using h0
      subst hlt
      simp [detectPeakAt]

/-- Witness for `flat_run_no_candidate` at a concrete flat tick. -/
theorem flat_run_no_candidate_witness :
    (0 : ℚ) = 0 ∧ detectPeakAt [1] [] 0 5 = false :=
  ⟨rfl, flat_run_no_candidate [1] [] 0 5 (Or.inl rfl)⟩

/-- C7 (amended): stopping a module only clears its flag.  Deactivating then
reactivating the Raw (gait) module changes nothing but the flag — buffers and
detector state are retained — while reactivating the Filtered (hip) module is
what clears its eight buffers; stopping the hip module retains everything. -/
theorem module_toggle_amended (s : CollectorState) :
    (start_gait_module (stop_gait_module s)).1 =
      { s with gait_module_enabled := true } ∧
    stop_hip_module s = { s with hip_module_enabled := false } ∧
    (start_hip_module (stop_hip_module s)).1 =
      { s with hip_module_enabled := true
               time_data := []
               hip_data := []
               hip_filtered_data := []
               ankle_deg_data := []
               phase_data := []
               swing_progress_data := []
               ankle_ref_data := []
               act_data := [] } := by
  refine ⟨?_, rfl, ?_⟩
  · simp [start_gait_module, stop_gait_module]
  · simp [start_hip_module, stop_hip_module]

/-- C7 counterexample: with data collected in both modes, stopping and
restarting the Raw (gait) module leaves the channel buffers non-empty and the
detector initialised (contradicting the claimed reset), while stopping and
restarting the Filtered (hip) module empties its buffers (contradicting the
claimed retention across reactivation). -/
theorem module_toggle_counterexample :
    (start_gait_module (stop_gait_module c7State)).1.hip_data = [1, 2] ∧
    (start_gait_module (stop_gait_module c7State)).1.detector.last_hip_angle =
      some 1 ∧
    ¬ (start_gait_module (stop_gait_module c7State)).1.hip_data = [] ∧
    ¬ (start_gait_module (stop_gait_module c7State)).1.detector.last_hip_angle =
      none ∧
    ¬ c7State.time_data = [] ∧
    (start_hip_module (stop_hip_module c7State)).1.time_data = [] := by
  with_unfolding_all decide

/-- C8 (amended): `clear_all_data` resets `time_data`, `hip_data`,
`ankle_data`, the gait-cycle series and the whole peak-detection state (back
to the `__init__` values), and drops the loaded-data marker — but leaves the
hip-module buffers (filtered angle, filtered velocity, phase, swing progress,
ankle deg/ref, act) untouched. -/
theorem clear_all_data_amended (s : CollectorState) :
    clear_all_data s =
      { s with time_data := []
               hip_data := []
               ankle_data := []
               detector := initDetector
               is_loaded_data := false } ∧
    (clear_all_data s).hip_filtered_data = s.hip_filtered_data ∧
    (clear_all_data s).hip_velocity_filtered_data =
      s.hip_velocity_filtered_data ∧
    (clear_all_data s).phase_data = s.phase_data ∧
    (clear_all_data s).swing_progress_data = s.swing_progress_data ∧
    (clear_all_data s).ankle_deg_data = s.ankle_deg_data ∧
    (clear_all_data s).ankle_ref_data = s.ankle_ref_data ∧
    (clear_all_data s).act_data = s.act_data :=
  ⟨rfl, rfl, rfl, rfl, rfl, rfl, rfl, rfl⟩

/-- C8 counterexample: on a state with data in the hip-module buffers,
`clear_all_data` clears `time_data` and the detector but leaves the
filtered-angle and phase buffers with their old contents. -/
theorem clear_all_data_counterexample :
    (clear_all_data c8State).hip_filtered_data = [some 1] ∧
    (clear_all_data c8State).phase_data = [some 2] ∧
    (clear_all_data c8State).hip_velocity_filtered_data = [some 9] ∧
    ¬ (clear_all_data c8State).hip_filtered_data = [] ∧
    (clear_all_data c8State).time_data = [] ∧
    (clear_all_data c8State).detector.last_hip_angle = none := by
  with_unfolding_all decide

/-- C6 (amended): every accepted sample appends exactly one entry to each of
the nine hip-mode buffers, so equal lengths are preserved in lock-step; the
optional fields `hf`, `hvf`, `a`, `ar` are stored as the missing-sentinel when
absent, but `phase`, `s` and `act` are stored with the numeric defaults 0,
0.0 and 0 respectively when absent. -/
theorem hip_lockstep_and_sentinels (s : CollectorState) (d : TelemetryRecord)
    (t h : ℚ) (ht : lookupKey d "t" = some t) (hh : lookupKey d "h" = some h)
    (halign : hipBuffersAligned s) :
    hipBuffersAligned (hipProcessStep s d) ∧
    (hipProcessStep s d).time_data.length =
      (if s.time_data.length < MAX_DATA_POINTS then s.time_data.length + 1
       else s.time_data.length) ∧
    (hipProcessStep s d).hip_filtered_data.getLast? = some (lookupKey d "hf") ∧
    (hipProcessStep s d).hip_velocity_filtered_data.getLast? =
      some (lookupKey d "hvf") ∧
    (hipProcessStep s d).ankle_deg_data.getLast? = some (lookupKey d "a") ∧
    (hipProcessStep s d).ankle_ref_data.getLast? = some (lookupKey d "ar") ∧
    (hipProcessStep s d).phase_data.getLast? =
      some (some ((lookupKey d "phase").getD 0)) ∧
    (hipProcessStep s d).swing_progress_data.getLast? =
      some (some ((lookupKey d "s").getD 0)) ∧
    (hipProcessStep s d).act_data.getLast? =
      some (some ((lookupKey d "act").getD 0)) := by
  obtain ⟨e1, e2, e3, e4, e5, e6, e7, e8⟩ := halign
  have hcap : 1 ≤ MAX_DATA_POINTS := by norm_num [MAX_DATA_POINTS]
  unfold hipProcessStep
  rw [ht, hh]
  by_cases hg : s.gait_module_enabled <;>
    simp only [hg, if_true, if_false, Bool.false_eq_true, ite_true, ite_false] <;>
    refine ⟨⟨?_, ?_, ?_, ?_, ?_, ?_, ?_, ?_⟩, ?_, ?_, ?_, ?_, ?_, ?_, ?_, ?_⟩ <;>
    simp only [dequeAppend_length MAX_DATA_POINTS hcap, dequeAppend_getLast?,
      ← e1, ← e2, ← e3, ← e4, ← e5, ← e6, ← e7, ← e8]

/-- Witness for `hip_lockstep_and_sentinels` on a concrete accepted sample
carrying only the mandatory keys. -/
theorem hip_lockstep_and_sentinels_witness :
    hipBuffersAligned (hipProcessStep hipOnState recTH) ∧
    (hipProcessStep hipOnState recTH).phase_data.getLast? = some (some 0) :=
  ⟨(hip_lockstep_and_sentinels hipOnState recTH 1 2 (by with_unfolding_all decide)
      (by with_unfolding_all decide) (by with_unfolding_all decide)).1,
   by
    have h := (hip_lockstep_and_sentinels hipOnState recTH 1 2
      (by with_unfolding_all decide) (by with_unfolding_all decide)
      (by with_unfolding_all decide)).2.2.2.2.2.2.1
    simpa using h⟩

/-- C6 counterexample: on a sample carrying only `t` and `h`, the code stores
the numeric default `0` in the phase slot, where the claimed behaviour (the
spec-faithful `hipProcessStepSpec`) stores the missing-sentinel. -/
theorem sentinel_counterexample :
    (hipProcessStep hipOnState recTH).phase_data = [some 0] ∧
    (hipProcessStepSpec hipOnState recTH).phase_data = [none] ∧
    hipProcessStep hipOnState recTH ≠ hipProcessStepSpec hipOnState recTH := by
  with_unfolding_all decide

set_option maxRecDepth 4000

/-- Evaluation of `c3_trace`, sample 1. -/
theorem c3_step1 : detect_gait_cycle initDetector 0 0 none = (c3s1, none) := by
  with_unfolding_all decide

/-- Evaluation of `c3_trace`, sample 2. -/
theorem c3_step2 : detect_gait_cycle c3s1 500 1 none = (c3s2, none) := by
  with_unfolding_all decide

/-- Evaluation of `c3_trace`, sample 3. -/
theorem c3_step3 : detect_gait_cycle c3s2 1000 2 none = (c3s3, none) := by
  with_unfolding_all decide

/-- Evaluation of `c3_trace`, sample 4. -/
theorem c3_step4 : detect_gait_cycle c3s3 1500 1 none = (c3s4, none) := by
  with_unfolding_all decide

/-- Evaluation of `c3_trace`, sample 5. -/
theorem c3_step5 : detect_gait_cycle c3s4 2000 0 none = (c3s5, none) := by
  with_unfolding_all decide

/-- Evaluation of `c3_trace`, sample 6. -/
theorem c3_step6 : detect_gait_cycle c3s5 2500 1 none = (c3s6, none) := by
  norm_num [detect_gait_cycle, c3s5, c3s6, initDetector, pushHistory, pushTrend,
    detectPeakAt, handlePeak, cyclePhase, save_gait_cycle, trimStartIdx,
    min_cycle_duration, max_cycle_duration, List.findIdx?_cons, List.findIdx?_nil]

/-- The whole six-sample run. -/
theorem c3_run : runDetector initDetector c3_trace = c3s6 := by
  simp only [runDetector, c3_trace, List.foldl_cons, List.foldl_nil,
    c3_step1, c3_step2, c3_step3, c3_step4, c3_step5, c3_step6]

/-- C3 counterexample: on `c3_trace` a qualifying minimum at t = 2000 follows
the recorded maximum at t = 1000 (duration 1000 ms, inside the bounds), and
afterwards `last_peak_time` has advanced to 2000 — but the accumulated cycle
still begins at t = 1000: the samples at 1000 and 1500, both before the new
peak, were not dropped. -/
theorem trim_not_at_new_peak_counterexample :
    c3s5.last_peak_time = some 1000 ∧
    c3s5.last_hip_angle = some 0 ∧
    detectPeakAt c3s5.hip_angle_trend
      (pushHistory c3s5.hip_angle_history ⟨2500, 1, none⟩) (1 - 0) 1 = true ∧
    (runDetector initDetector c3_trace).last_peak_time = some 2000 ∧
    (runDetector initDetector c3_trace).gait_cycle_time =
      [1000, 1500, 2000, 2500] ∧
    (1000 : ℚ) < 2000 ∧ (1500 : ℚ) < 2000 := by
  refine ⟨rfl, rfl, ?_, ?_, ?_, by norm_num, by norm_num⟩
  · with_unfolding_all decide
  · rw [c3_run]
    rfl
  · rw [c3_run]
    rfl


/-- Elements of the trimmed-away prefix lie strictly before the search key. -/
theorem mem_take_trimStartIdx_lt (ct : List ℚ) (x y : ℚ)
    (hy : y ∈ ct.take (trimStartIdx ct x)) : y < x := by
  unfold trimStartIdx at hy
  cases hf : ct.findIdx? (fun u => decide (x ≤ u)) with
  | none => rw [hf] at hy; simp at hy
  | some k =>
    rw [hf] at hy
    simp only [Option.getD_some] at hy
    obtain ⟨hk, -, hbefore⟩ := List.findIdx?_eq_some_iff_getElem.mp hf
    obtain ⟨i, hi, hel⟩ := List.mem_take_iff_getElem.mp hy
    have hik : i < k := lt_of_lt_of_le hi inf_le_left
    have hxy := hbefore i hik
    rw [hel] at hxy
    simp only [decide_eq_true_eq] at hxy
    exact lt_of_not_le hxy

/-- C3 (amended): whenever the qualifying-peak handler runs with a prior peak
recorded at `lp`, `last_peak_time`/`last_peak_angle` always advance to the new
peak, whether or not a record is emitted — but the accumulated-cycle buffer is
only ever trimmed at the position of the PRIOR peak: the surviving buffer is a
suffix of the old one and every dropped sample lies strictly before `lp` (so
samples between the prior and the new peak are retained, not dropped). -/
theorem peak_advance_trim_amended (s : DetectorState) (pt pa lp : ℚ)
    (hlp : s.last_peak_time = some lp) :
    (handlePeak s pt pa).1.last_peak_time = some pt ∧
    (handlePeak s pt pa).1.last_peak_angle = some pa ∧
    ∃ pre, pre ++ (handlePeak s pt pa).1.gait_cycle_time = s.gait_cycle_time ∧
      ∀ x ∈ pre, x < lp := by
  simp only [handlePeak, hlp]
  by_cases hdur : min_cycle_duration ≤ pt - lp ∧ pt - lp ≤ max_cycle_duration
  · simp only [hdur, if_true, ite_true]
    by_cases hidx : trimStartIdx s.gait_cycle_time lp < s.gait_cycle_time.length
    · simp only [hidx, if_true, ite_true]
      refine ⟨rfl, rfl,
        ⟨s.gait_cycle_time.take (trimStartIdx s.gait_cycle_time lp), ?_, ?_⟩⟩
      · exact List.take_append_drop _ _
      · intro x hx
        exact mem_take_trimStartIdx_lt _ _ _ hx
    · simp only [hidx, if_false, ite_false]
      refine ⟨?_, ?_, ⟨[], ?_, ?_⟩⟩ <;> simp
  · simp only [hdur, if_false, ite_false]
    refine ⟨?_, ?_, ⟨[], ?_, ?_⟩⟩ <;> simp

/-- Witness for `peak_advance_trim_amended`: prior peak at 200, new peak at
1100 (duration 900 ms, in range); the buffer sample at t = 100 is dropped,
everything from t = 200 on survives. -/
theorem peak_advance_trim_witness :
    (handlePeak c3WitnessState 1100 0).1.last_peak_time = some 1100 ∧
    (handlePeak c3WitnessState 1100 0).1.last_peak_angle = some 0 ∧
    ∃ pre, pre ++ (handlePeak c3WitnessState 1100 0).1.gait_cycle_time =
        c3WitnessState.gait_cycle_time ∧ ∀ x ∈ pre, x < 200 :=
  peak_advance_trim_amended c3WitnessState 1100 0 200 rfl

/-- Sanity check that the embedded detector really emits: one falling sample
after `emitReadyState` reveals the maximum at t = 1050, 950 ms after the prior
peak, with 20 accumulated samples, and a record is produced. -/
theorem emission_sanity :
    ((detect_gait_cycle emitReadyState 1100 1 none).2).isSome = true := by
  norm_num [detect_gait_cycle, emitReadyState, initDetector, pushHistory,
    pushTrend, detectPeakAt, handlePeak, cyclePhase, save_gait_cycle,
    trimStartIdx, min_cycle_duration, max_cycle_duration, List.findIdx?_cons,
    List.findIdx?_nil]

/-- A successful peak test implies the window holds at least three entries. -/
theorem detectPeakAt_eq_true_shape (tr : List ℚ) (h2 : List HistEntry) (d n : ℚ)
    (hp : detectPeakAt tr h2 d n = true) :
    ∃ c m p rest, h2 = c :: m :: p :: rest := by
  cases tr with
  | nil => exact absurd hp (by simp [detectPeakAt])
  | cons lt r =>
    by_cases hsf : (0 < lt ∧ d < 0) ∨ (lt < 0 ∧ 0 < d)
    · rcases h2 with _ | ⟨c, _ | ⟨m, _ | ⟨p, rest⟩⟩⟩
      · exact absurd hp (by simp [detectPeakAt, hsf])
      · exact absurd hp (by simp [detectPeakAt, hsf])
      · exact absurd hp (by simp [detectPeakAt, hsf])
      · exact ⟨c, m, p, rest, rfl⟩
    · exact absurd hp (by simp [detectPeakAt, hsf])

/-- C2: the source's peak test succeeds exactly when the sign of the most
recent trend entry strictly flips against the new delta, the 20-sample window
(current sample included) holds at least 3 entries, and the middle of the last
three window entries is `≥` both neighbours or `≤` both neighbours (ties
declare a peak). -/
theorem peak_candidacy_iff (tr : List ℚ) (hist : List HistEntry) (t h : ℚ)
    (a : Option ℚ) (delta : ℚ) :
    detectPeakAt tr (pushHistory hist ⟨t, h, a⟩) delta h = true ↔
      (∃ lt rest, tr = lt :: rest ∧ signFlips lt delta) ∧
      3 ≤ (pushHistory hist ⟨t, h, a⟩).length ∧
      middleIsExtremum (pushHistory hist ⟨t, h, a⟩) := by
  have hpush : pushHistory hist ⟨t, h, a⟩ = ⟨t, h, a⟩ :: hist.take 19 := rfl
  rw [hpush]
  cases tr with
  | nil => simp [detectPeakAt]
  | cons lt rest =>
    by_cases hsf : (0 < lt ∧ delta < 0) ∨ (lt < 0 ∧ 0 < delta)
    · cases hl : hist.take 19 with
      | nil => simp [detectPeakAt, hsf, middleIsExtremum]
      | cons m rest2 =>
        cases rest2 with
        | nil => simp [detectPeakAt, hsf, middleIsExtremum]
        | cons p rest3 =>
          by_cases hext : (p.angle ≤ m.angle ∧ h ≤ m.angle) ∨
              (m.angle ≤ p.angle ∧ m.angle ≤ h)
          · simp only [detectPeakAt, hext, if_true, ite_true, if_pos hsf]
            constructor
            · intro _
              refine ⟨⟨lt, rest, rfl, hsf⟩, by simp, ?_⟩
              exact ⟨⟨t, h, a⟩, m, p, rest3, rfl,
                by simpa using hext⟩
            · intro _
              trivial
          · simp only [detectPeakAt, if_pos hsf]
            rw [if_neg hext]
            constructor
            · intro hfalse
              exact absurd hfalse (by simp)
            · rintro ⟨-, -, ⟨c2, m2, p2, r2, heq, hext2⟩⟩
              obtain ⟨rfl, rfl, rfl⟩ : c2 = ⟨t, h, a⟩ ∧ m2 = m ∧ p2 = p := by
                simp at heq
                exact ⟨heq.1.symm, heq.2.1.symm, heq.2.2.1.symm⟩
              exact absurd (by simpa using hext2) hext
    · simp only [detectPeakAt, if_neg hsf]
      constructor
      · intro hfalse
        exact absurd hfalse (by simp)
      · rintro ⟨⟨lt2, rest2, heq, hflip⟩, -, -⟩
        obtain ⟨rfl, rfl⟩ : lt2 = lt ∧ rest2 = rest := by
          simp at heq
          exact ⟨heq.1.symm, heq.2.symm⟩
        exact absurd hflip hsf


/-- With at least 10 accumulated points, `_save_gait_cycle` always produces a
record. -/
theorem save_gait_cycle_isSome (ct : List ℚ) (ch : List ℚ) (ca : List (Option ℚ))
    (hlen : 10 ≤ ct.length) : (save_gait_cycle ct ch ca).isSome = true := by
  unfold save_gait_cycle
  rw [if_neg (by omega)]
  cases ct with
  | nil => simp at hlen
  | cons x l => simp

/-- The first-peak branch of the peak handler never emits a record. -/
theorem handlePeak_none_snd (st : DetectorState) (hst : st.last_peak_time = none)
    (pt pa : ℚ) : (handlePeak st pt pa).2 = none := by
  simp only [handlePeak, hst]
  split <;> rfl

/-- C1: one detector step emits (and stores) a CycleRecord exactly when a
qualifying peak is found while a prior peak is recorded, the peak-to-peak
duration lies within 800..3000 ms, and the accumulated cycle holds at least
20 samples; in particular 400 ms or 3500 ms peak pairs never emit, and a
1500 ms pair with 25 accumulated samples does. -/
theorem cycle_emission_iff (s : DetectorState) (t h : ℚ) (a : Option ℚ) :
    ((detect_gait_cycle s t h a).2).isSome = true ↔ cycleEmitCondition s t h a := by
  cases hla : s.last_hip_angle with
  | none =>
    simp [detect_gait_cycle, hla, cycleEmitCondition]
  | some la =>
    simp only [detect_gait_cycle, hla]
    by_cases hpk : detectPeakAt s.hip_angle_trend
        (pushHistory s.hip_angle_history ⟨t, h, a⟩) (h - la) h = true
    · obtain ⟨c, m, p, rest, hshape⟩ := detectPeakAt_eq_true_shape _ _ _ _ hpk
      rw [hshape] at hpk ⊢
      simp only [hpk, if_true, ite_true]
      unfold cycleEmitCondition
      rw [hshape]
      cases hlp : s.last_peak_time with
      | none =>
        rw [handlePeak_none_snd _ (by simp [hlp]) _ _]
        simp [hlp]
      | some lp =>
        simp only [handlePeak, hlp]
        by_cases hdur : min_cycle_duration ≤ m.time - lp ∧
            m.time - lp ≤ max_cycle_duration
        · simp only [hdur, if_true, ite_true]
          by_cases hlen : 20 ≤ s.gait_cycle_time.length
          · simp only [hlen, if_true, ite_true]
            constructor
            · intro _
              exact ⟨la, lp, m, hla, rfl, hpk, rfl, hdur.1, hdur.2, by simp [hlen]⟩
            · intro _
              exact save_gait_cycle_isSome _ _ _ (by omega)
          · simp only [hlen, if_false, ite_false]
            constructor
            · intro hfalse
              simp at hfalse
            · rintro ⟨la2, lp2, m2, -, -, -, hnp, -, -, h20⟩
              exact h20.elim
        · simp only [hdur, if_false, ite_false]
          constructor
          · intro hfalse
            simp at hfalse
          · rintro ⟨la2, lp2, m2, hla2, hlp2, -, hnp, h800, h3000, -⟩
            have hlpe : lp2 = lp := by
              simp at hlp2
              exact hlp2.symm
            have hme : m2 = m := by
              simp [newPeakOf] at hnp
              exact hnp.symm
            subst hlpe
            subst hme
            exact (hdur ⟨h800, h3000⟩).elim
    · have hpkf : detectPeakAt s.hip_angle_trend
          (pushHistory s.hip_angle_history ⟨t, h, a⟩) (h - la) h = false := by
        simpa using hpk
      simp only [hpkf, Bool.false_eq_true, if_false, ite_false]
      constructor
      · intro hfalse
        simp at hfalse
      · rintro ⟨la2, lp2, m2, hla2, -, hpk2, -⟩
        have hlae : la2 = la := by
          rw [hla] at hla2
          simpa using hla2.symm
        subst hlae
        rw [hpk2] at hpkf
        exact absurd hpkf (by simp)

/-- Python `c in l` agrees with the success of `l.find(c)`. -/
theorem contains_eq_find_isSome (l : List Char) (c : Char) :
    l.contains c = (pyFind l c).isSome := by
  unfold pyFind
  induction l with
  | nil => rfl
  | cons a r ih =>
    rw [List.contains_cons, List.findIdx?_cons]
    by_cases hac : a = c
    · subst hac
      simp
    · have h1 : (c == a) = false := beq_eq_false_iff_ne.mpr (Ne.symm hac)
      have h2 : (a == c) = false := beq_eq_false_iff_ne.mpr hac
      rw [h1, h2]
      simp only [Bool.false_or, Bool.false_eq_true, if_false, List.findIdx?_succ]
      rw [ih]
      cases List.findIdx? (fun x => x == c) r <;> rfl

/-- Python `c in l` agrees with the success of `l.rfind(c)`. -/
theorem contains_eq_rfind_isSome (l : List Char) (c : Char) :
    l.contains c = (pyRFind l c).isSome := by
  unfold pyRFind
  have h1 : l.reverse.contains c = l.contains c := by
    rw [Bool.eq_iff_iff]
    simp
  rw [← h1, contains_eq_find_isSome]
  unfold pyFind
  cases l.reverse.findIdx? (fun x => x == c) <;> rfl

/-- A successful `find` returns an index carrying the sought character. -/
theorem pyFind_spec (l : List Char) (c : Char) (i : Nat)
    (hf : pyFind l c = some i) :
    ∃ (hi : i < l.length), l.get ⟨i, hi⟩ = c := by
  unfold pyFind at hf
  obtain ⟨hi, hp, -⟩ := List.findIdx?_eq_some_iff_getElem.mp hf
  refine ⟨hi, ?_⟩
  simpa using hp

/-- A successful `rfind` returns an index carrying the sought character. -/
theorem pyRFind_spec (l : List Char) (c : Char) (j : Nat)
    (hr : pyRFind l c = some j) :
    ∃ (hj : j < l.length), l.get ⟨j, hj⟩ = c := by
  unfold pyRFind at hr
  cases hf : l.reverse.findIdx? (fun x => x == c) with
  | none => rw [hf] at hr; simp at hr
  | some j0 =>
    rw [hf] at hr
    simp only [Option.map] at hr
    obtain ⟨hj0, hp, -⟩ := List.findIdx?_eq_some_iff_getElem.mp hf
    rw [List.getElem_reverse] at hp
    have hj0l : j0 < l.length := by simpa using hj0
    have hlpos : 0 < l.length := Nat.lt_of_le_of_lt (Nat.zero_le _) hj0l
    have hj : l.length - 1 - j0 < l.length := by omega
    have hjeq : j = l.length - 1 - j0 := by
      cases hr
      rfl
    subst hjeq
    refine ⟨hj, ?_⟩
    simpa using hp

/-- The GUI extractor coincides with the spec-worded contract for every
decoder and every line (the guards `contains`/`find`/`rfind` and the index
comparisons agree, since the first opening brace can never be the last
closing brace). -/
theorem extract_sample_eq_spec (decode : String → Option TelemetryRecord)
    (line : String) :
    extract_sample decode line = extractSampleSpec decode line := by
  unfold extract_sample extractSampleSpec
  by_cases h1 : (pyStrip line.data).isEmpty = true
  · simp only [h1, if_true, ite_true]
  · simp only [h1, Bool.false_eq_true, if_false, ite_false]
    by_cases h2 : (startsWithChars (pyStrip line.data) ">" ||
        startsWithChars (pyStrip line.data) "Command:") = true
    · simp only [h2, if_true, ite_true]
    · simp only [h2, Bool.false_eq_true, if_false, ite_false]
      cases hf : pyFind (pyStrip line.data) '\x7b' with
      | none =>
        have hc : (pyStrip line.data).contains '\x7b' = false := by
          rw [contains_eq_find_isSome, hf]
          rfl
        simp only [hc, Bool.false_and, Bool.false_eq_true, if_false, ite_false, hf]
      | some i =>
        cases hr : pyRFind (pyStrip line.data) '\x7d' with
        | none =>
          have hc : (pyStrip line.data).contains '\x7d' = false := by
            rw [contains_eq_rfind_isSome, hr]
            rfl
          simp only [hc, Bool.and_false, Bool.false_eq_true, if_false, ite_false,
            hf, hr]
        | some j =>
          have hc1 : (pyStrip line.data).contains '\x7b' = true := by
            rw [contains_eq_find_isSome, hf]
            rfl
          have hc2 : (pyStrip line.data).contains '\x7d' = true := by
            rw [contains_eq_rfind_isSome, hr]
            rfl
          obtain ⟨hi, hgi⟩ := pyFind_spec _ _ _ hf
          obtain ⟨hj, hgj⟩ := pyRFind_spec _ _ _ hr
          have hij : i ≠ j := by
            intro he
            subst he
            rw [hgi] at hgj
            exact absurd hgj (by decide)
          simp only [hc1, hc2, Bool.and_self, if_true, ite_true, hf, hr,
            Option.getD_some]
          by_cases hlt : i < j
          · rw [if_pos (show i < j + 1 by omega), if_pos hlt]
          · rw [if_neg (show ¬ i < j + 1 by omega), if_neg hlt]


/-- A line that starts with the opening brace decomposes as such. -/
theorem startsWith_brace (l : List Char) (hs : startsWithChars l "\x7b" = true) :
    ∃ r, l = '\x7b' :: r := by
  unfold startsWithChars at hs
  cases l with
  | nil => simp [List.isPrefixOf] at hs
  | cons a r =>
    simp [List.isPrefixOf] at hs
    exact ⟨r, by rw [hs]⟩

/-- Any line the older console extractor accepts (whole stripped line is a
braced record with keys `t`, `h`, `a`) is accepted by the GUI extractor with
the same decoded record. -/
theorem old_accepts_imp_new (decode : String → Option TelemetryRecord)
    (line : String) (r : TelemetryRecord)
    (hold : extract_sample_old decode line = some r) :
    extract_sample decode line = some r := by
  unfold extract_sample_old at hold
  by_cases h1 : (pyStrip line.data).isEmpty = true
  · rw [if_pos h1] at hold
    exact absurd hold (by simp)
  · rw [if_neg h1] at hold
    by_cases h2 : (startsWithChars (pyStrip line.data) ">" ||
        startsWithChars (pyStrip line.data) "Command:") = true
    · rw [if_pos h2] at hold
      exact absurd hold (by simp)
    · rw [if_neg h2] at hold
      by_cases h3 : (startsWithChars (pyStrip line.data) "\x7b" &&
          decide ((pyStrip line.data).getLast? = some '\x7d')) = true
      · rw [if_pos h3] at hold
        obtain ⟨hstart, hlastb⟩ := Bool.and_eq_true_iff.mp h3
        have hlast : (pyStrip line.data).getLast? = some '\x7d' :=
          of_decide_eq_true hlastb
        obtain ⟨rest, hl⟩ := startsWith_brace _ hstart
        cases hd : decode (String.mk (pyStrip line.data)) with
        | none =>
          simp only [hd] at hold
          exact absurd hold (by simp)
        | some r0 =>
          simp only [hd] at hold
          by_cases hk : (hasKey r0 "t" && hasKey r0 "h" && hasKey r0 "a") = true
          · rw [if_pos hk] at hold
            obtain ⟨hth, ha⟩ := Bool.and_eq_true_iff.mp hk
            obtain ⟨ht, hh⟩ := Bool.and_eq_true_iff.mp hth
            have hr0 : r0 = r := by
              simpa using hold
            subst hr0
            -- now the GUI extractor accepts the same line with the same record
            have hrev : ∃ rr, (pyStrip line.data).reverse = '\x7d' :: rr := by
              have hh2 := List.head?_reverse (pyStrip line.data)
              rw [hlast] at hh2
              cases hrc : (pyStrip line.data).reverse with
              | nil => rw [hrc] at hh2; simp at hh2
              | cons b rr =>
                rw [hrc] at hh2
                simp at hh2
                exact ⟨rr, by rw [hh2]⟩
            obtain ⟨rr, hrev⟩ := hrev
            have hcb : (pyStrip line.data).contains '\x7b' = true := by
              rw [hl]
              simp [List.contains_cons]
            have hcd : (pyStrip line.data).contains '\x7d' = true := by
              have hmem : '\x7d' ∈ (pyStrip line.data) := by
                rw [← List.mem_reverse, hrev]
                exact List.mem_cons_self _ _
              simp [hmem]
            have hpf : pyFind (pyStrip line.data) '\x7b' = some 0 := by
              rw [hl]
              unfold pyFind
              rw [List.findIdx?_cons]
              simp
            have hlen1 : 1 ≤ (pyStrip line.data).length := by
              rw [hl]
              simp
            have hpr : pyRFind (pyStrip line.data) '\x7d' =
                some ((pyStrip line.data).length - 1) := by
              unfold pyRFind
              rw [hrev, List.findIdx?_cons]
              simp
            unfold extract_sample
            rw [if_neg h1, if_neg h2]
            rw [show ((pyStrip line.data).contains '\x7b' &&
                (pyStrip line.data).contains '\x7d') = true by
              simp only [hcb, hcd, Bool.and_self]]
            rw [if_pos rfl]
            rw [hpf, hpr]
            simp only [Option.getD_some]
            rw [if_pos (show 0 < (pyStrip line.data).length - 1 + 1 by omega)]
            rw [List.drop_zero]
            rw [show (pyStrip line.data).length - 1 + 1 - 0 =
                (pyStrip line.data).length by omega]
            rw [List.take_length]
            simp only [hd]
            rw [if_pos (show (hasKey r0 "t" && hasKey r0 "h") = true by
              simp only [ht, hh, Bool.and_self])]
          · rw [if_neg hk] at hold
            exact absurd hold (by simp)
      · rw [if_neg h3] at hold
        exact absurd hold (by simp)


/-- C4: for every line surviving the framer filters, the extractor accepts a
decoded record iff it carries both mandatory keys `t` and `h` (per the
spec-worded contract `extractSampleSpec`, for every decoder); concretely, the
well-formed line is accepted with its record, the line missing `h` is
rejected, and the unquoted-keys line fails to decode and is dropped silently
(the extractor is total and merely returns `none`). -/
theorem extraction_matches_contract :
    (∀ decode line, extract_sample decode line = extractSampleSpec decode line) ∧
    extract_sample jsonDecodeFlat jsonLineTH =
      some [("t", 1234), ("h", (15.5 : ℚ))] ∧
    extract_sample jsonDecodeFlat jsonLineTOnly = none ∧
    extract_sample jsonDecodeFlat jsonLineUnquoted = none := by
  refine ⟨extract_sample_eq_spec, ?_, ?_, ?_⟩ <;> with_unfolding_all decide

/-- C10: every line the older revision's extractor accepts is accepted by the
GUI revision's extractor with the same record, and the containment is strict:
the record with only `t` and `h` is accepted by the new extractor but
rejected by the old one. -/
theorem old_extractor_refines_new :
    (∀ decode line r, extract_sample_old decode line = some r →
      extract_sample decode line = some r) ∧
    extract_sample jsonDecodeFlat lineTH2 = some recTH ∧
    extract_sample_old jsonDecodeFlat lineTH2 = none := by
  refine ⟨old_accepts_imp_new, ?_, ?_⟩ <;> with_unfolding_all decide

/-- Witness for `old_extractor_refines_new`: a concrete line accepted by the
old extractor is also accepted, with the same record, by the new one. -/
theorem old_extractor_refines_new_witness :
    extract_sample jsonDecodeFlat lineTHA = some [("t", 1), ("h", 2), ("a", 3)] :=
  old_extractor_refines_new.1 jsonDecodeFlat lineTHA [("t", 1), ("h", 2), ("a", 3)]
    (by with_unfolding_all decide)

end Gait
